import Mathlib

/-!
Shallow embedding of src/src/model.hpp (namespace imv) from the repository
Qt-ItemModelView: the Index value type, the Model abstract base and its
public methods, the moving flag, and the change notifications.

Conventions of the embedding:
- QVariant is modelled as Option Int, none being the empty variant.
- A Model pointer is modelled as Option Nat; none is nullptr and some a is
  the address a of a model object. Index stores such a pointer.
- The abstract base is a record Model of the virtual hooks together with the
  object address self. Subclass storage is an abstract state type sigma;
  mutating hooks take the state and return the new state with their Bool
  result. Const hooks take the state only.
- The one data member of the base, the moving flag, is declared in the
  source as a C++ bool initialised from the enum value Nothing, although
  the enum Moving has three values (Nothing = 0, Rows = 1, Columns = 2).
  The embedding keeps the Bool type of the field and models each bitwise
  operation on it through the C++ conversions: the bool converts to the
  int 0 or 1, the bitwise operation is done on 32-bit ints, and the
  assignment back to bool maps nonzero to true.
- Notifications are collected in a list of Signal values returned by each
  mutating method; the base class emissions only (hook-internal behaviour
  is out of scope, hooks being abstract).
- Model::valid and Model::parent call each other: valid(index) first
  computes parent(index), and parent(index) first computes valid(index).
  The embedding makes the call-stack depth explicit through a fuel
  argument; a result of none means the depth was exhausted, so a proof
  that a method yields none at every fuel is a proof that the C++ call
  never returns.
-/

namespace Imv

/-- QVariant: none models the empty (invalid) variant. -/
abbrev QVariant := Option Int

/-- Index of an item in a model: row, column, internal id (quintptr) and
the pointer to the owning model (none is nullptr). A default-constructed
index is invalidIndex below. Equality of the Lean structure coincides with
Index::operator== of the source, which compares all four fields. -/
structure Index where
  row : Int
  column : Int
  id : Nat
  model : Option Nat
deriving DecidableEq

/-- The default-constructed Index: row -1, column -1, id 0, null model. -/
def invalidIndex : Index := Index.mk (-1) (-1) 0 none

/-- The change notifications of the base class (the Qt signals). -/
inductive Signal where
  | dataChanged : Index → QVariant → Int → Signal
  | rowsRemoved : Int → Int → Index → Signal
  | rowsAdded : Int → Int → Index → Signal
  | columnsRemoved : Int → Int → Index → Signal
  | columnsAdded : Int → Int → Index → Signal
  | rowsMoved : Index → Int → Int → Index → Int → Signal
  | columnsMoved : Index → Int → Int → Index → Int → Signal
deriving DecidableEq

/-- enum Moving, value Rows. -/
def movingRows : Nat := 1

/-- enum Moving, value Columns. -/
def movingColumns : Nat := 2

/-- C++ integral promotion of the bool field moving_ before a bitwise
operation: false is 0, true is 1. -/
def boolToInt (b : Bool) : Nat := if b then 1 else 0

/-- The 32-bit two's-complement pattern of the C++ expression ~Rows,
that is ~1. -/
def notRowsMask : Nat := 0xFFFFFFFE

/-- The 32-bit two's-complement pattern of the C++ expression ~Columns,
that is ~2. -/
def notColumnsMask : Nat := 0xFFFFFFFD

/-- Model::beginMoveRows, effect on the bool field: moving_ |= Rows,
with conversion of the int result back to bool. -/
def beginMoveRowsFlag (m : Bool) : Bool :=
  decide ((boolToInt m ||| movingRows) ≠ 0)

/-- Model::endMoveRows, effect on the bool field: moving_ &= ~Rows. -/
def endMoveRowsFlag (m : Bool) : Bool :=
  decide ((boolToInt m &&& notRowsMask) ≠ 0)

/-- Model::beginMoveColumns, effect on the bool field: moving_ |= Columns. -/
def beginMoveColumnsFlag (m : Bool) : Bool :=
  decide ((boolToInt m ||| movingColumns) ≠ 0)

/-- Model::endMoveColumns, effect on the bool field: moving_ &= ~Columns. -/
def endMoveColumnsFlag (m : Bool) : Bool :=
  decide ((boolToInt m &&& notColumnsMask) ≠ 0)

/-- The Model base class: the object address self plus the virtual hooks,
in source order. Subclass storage has the abstract type sigma; const hooks
read it, mutating hooks also return the updated storage. -/
structure Model (σ : Type) where
  self : Nat
  onValid : σ → Index → Bool
  onRoot : σ → Index
  onIndex : σ → Int → Int → Index → Index
  onSetData : σ → Index → QVariant → Int → σ × Bool
  onData : σ → Index → Int → QVariant
  onRowCount : σ → Index → Int
  onColumnCount : σ → Index → Int
  onParent : σ → Index → Index
  onRemoveRows : σ → Int → Int → Index → σ × Bool
  onRemoveColumns : σ → Int → Int → Index → σ × Bool
  onMoveRows : σ → Index → Int → Int → Index → Int → σ × Bool
  onMoveColumns : σ → Index → Int → Int → Index → Int → σ × Bool

/-- The mutable state of a model object: the bool field moving_ and the
subclass storage. -/
structure ModelState (σ : Type) where
  moving : Bool
  sub : σ
deriving DecidableEq

/-- Model::createIndex(row, column, id): an index carrying this model. -/
def Model.createIndex {σ : Type} (M : Model σ) (row column : Int) (id : Nat) : Index :=
  Index.mk row column id (some M.self)

/-- Model::rowCount. -/
def Model.rowCount {σ : Type} (M : Model σ) (s : σ) (parent : Index) : Int :=
  M.onRowCount s parent

/-- Model::columnCount. -/
def Model.columnCount {σ : Type} (M : Model σ) (s : σ) (parent : Index) : Int :=
  M.onColumnCount s parent

/-- Model::validRow: row >= 0 && row <= rowCount(parent). -/
def Model.validRow {σ : Type} (M : Model σ) (s : σ) (row : Int) (parent : Index) : Bool :=
  decide (row ≥ 0) && decide (row ≤ M.rowCount s parent)

/-- Model::validColumn: column >= 0 && column <= columnCount(parent). -/
def Model.validColumn {σ : Type} (M : Model σ) (s : σ) (column : Int) (parent : Index) : Bool :=
  decide (column ≥ 0) && decide (column ≤ M.columnCount s parent)

mutual

/-- Model::valid with explicit call depth. The source first computes
parent(index), then checks index.model() == this, the row and column
bounds against that parent, and onValid(index). -/
def Model.valid {σ : Type} (M : Model σ) (s : σ) (fuel : Nat) (i : Index) : Option Bool :=
  match fuel with
  | 0 => none
  | Nat.succ f =>
    match Model.parent M s f i with
    | none => none
    | some par =>
      some (decide (i.model = some M.self) && M.validRow s i.row par &&
            M.validColumn s i.column par && M.onValid s i)

/-- Model::parent with explicit call depth: if !valid(index) return the
default-constructed Index, else return onParent(index). -/
def Model.parent {σ : Type} (M : Model σ) (s : σ) (fuel : Nat) (i : Index) : Option Index :=
  match fuel with
  | 0 => none
  | Nat.succ f =>
    match Model.valid M s f i with
    | none => none
    | some v => if v then some (M.onParent s i) else some invalidIndex

end

/-- Model::root: returns onRoot(). -/
def Model.root {σ : Type} (M : Model σ) (s : σ) : Index :=
  M.onRoot s

/-- Model::index(row, column, parent): the hook result behind the bounds
checks, the default-constructed Index otherwise. -/
def Model.index {σ : Type} (M : Model σ) (s : σ) (row column : Int) (parent : Index) : Index :=
  if M.validRow s row parent && M.validColumn s column parent then
    M.onIndex s row column parent
  else invalidIndex

/-- Model::data(index, role) with explicit call depth for the valid call:
the empty variant when the index is not valid, onData otherwise. -/
def Model.data {σ : Type} (M : Model σ) (s : σ) (fuel : Nat) (i : Index) (role : Int) :
    Option QVariant :=
  match M.valid s fuel i with
  | none => none
  | some v => if v then some (M.onData s i role) else some none

/-- Model::setData(index, value, role) with explicit call depth for the
valid call. On success the hook state is kept and dataChanged is raised;
when the hook declines its state change is kept without a notification;
when the index is not valid the hook is never invoked. -/
def Model.setData {σ : Type} (M : Model σ) (st : ModelState σ) (fuel : Nat) (i : Index)
    (value : QVariant) (role : Int) : Option (Bool × ModelState σ × List Signal) :=
  match M.valid st.sub fuel i with
  | none => none
  | some v =>
    if v then
      if (M.onSetData st.sub i value role).snd then
        some (true, ModelState.mk st.moving (M.onSetData st.sub i value role).fst,
              [Signal.dataChanged i value role])
      else
        some (false, ModelState.mk st.moving (M.onSetData st.sub i value role).fst, [])
    else some (false, st, [])

/-- The guard of Model::removeRows and Model::moveRows on the source
range: count > 0 && validRow(row, parent) && validRow(row+count-1, parent). -/
def Model.rowsRangeValid {σ : Type} (M : Model σ) (s : σ) (row count : Int) (parent : Index) : Bool :=
  decide (count > 0) && M.validRow s row parent && M.validRow s (row + count - 1) parent

/-- The guard of Model::removeColumns and Model::moveColumns on the source
range: count > 0 && validColumn(column, parent) && validColumn(column+count-1, parent). -/
def Model.columnsRangeValid {σ : Type} (M : Model σ) (s : σ) (column count : Int) (parent : Index) : Bool :=
  decide (count > 0) && M.validColumn s column parent && M.validColumn s (column + count - 1) parent

/-- Model::removeRows(row, count, parent). The hook runs only behind the
range guard; on success rowsRemoved(row, count, parent) is raised unless
moving_ & Rows is nonzero. -/
def Model.removeRows {σ : Type} (M : Model σ) (st : ModelState σ) (row count : Int)
    (parent : Index) : Bool × ModelState σ × List Signal :=
  if M.rowsRangeValid st.sub row count parent then
    if (M.onRemoveRows st.sub row count parent).snd then
      (true, ModelState.mk st.moving (M.onRemoveRows st.sub row count parent).fst,
       if boolToInt st.moving &&& movingRows = 0 then [Signal.rowsRemoved row count parent] else [])
    else
      (false, ModelState.mk st.moving (M.onRemoveRows st.sub row count parent).fst, [])
  else (false, st, [])

/-- Model::removeColumns(column, count, parent). The hook runs only behind
the range guard; on success columnsRemoved(column, count, parent) is raised
unless moving_ & Columns is nonzero. -/
def Model.removeColumns {σ : Type} (M : Model σ) (st : ModelState σ) (column count : Int)
    (parent : Index) : Bool × ModelState σ × List Signal :=
  if M.columnsRangeValid st.sub column count parent then
    if (M.onRemoveColumns st.sub column count parent).snd then
      (true, ModelState.mk st.moving (M.onRemoveColumns st.sub column count parent).fst,
       if boolToInt st.moving &&& movingColumns = 0 then
         [Signal.columnsRemoved column count parent]
       else [])
    else
      (false, ModelState.mk st.moving (M.onRemoveColumns st.sub column count parent).fst, [])
  else (false, st, [])

/-- Model::moveRows(from_parent, from_row, count, to_parent, to_row).
Behind the source-range guard it runs beginMoveRows, the hook, and
endMoveRows, which raises rowsMoved when the hook succeeded. Both paths
fall through to return false. -/
def Model.moveRows {σ : Type} (M : Model σ) (st : ModelState σ) (from_parent : Index)
    (from_row count : Int) (to_parent : Index) (to_row : Int) :
    Bool × ModelState σ × List Signal :=
  if M.rowsRangeValid st.sub from_row count from_parent then
    (false,
     ModelState.mk (endMoveRowsFlag (beginMoveRowsFlag st.moving))
       (M.onMoveRows st.sub from_parent from_row count to_parent to_row).fst,
     if (M.onMoveRows st.sub from_parent from_row count to_parent to_row).snd then
       [Signal.rowsMoved from_parent from_row count to_parent to_row]
     else [])
  else (false, st, [])

/-- Model::moveColumns(from_parent, from_column, count, to_parent, to_column).
Behind the source-range guard it runs beginMoveColumns, the hook, and
endMoveColumns, which raises columnsMoved when the hook succeeded. Both
paths fall through to return false. -/
def Model.moveColumns {σ : Type} (M : Model σ) (st : ModelState σ) (from_parent : Index)
    (from_column count : Int) (to_parent : Index) (to_column : Int) :
    Bool × ModelState σ × List Signal :=
  if M.columnsRangeValid st.sub from_column count from_parent then
    (false,
     ModelState.mk (endMoveColumnsFlag (beginMoveColumnsFlag st.moving))
       (M.onMoveColumns st.sub from_parent from_column count to_parent to_column).fst,
     if (M.onMoveColumns st.sub from_parent from_column count to_parent to_column).snd then
       [Signal.columnsMoved from_parent from_column count to_parent to_column]
     else [])
  else (false, st, [])

/-- Index::parent: model_ ? model_->parent(*this) : Index(). The model the
stored pointer resolves to is passed explicitly; the fuel bounds the depth
of the Model::parent call. -/
def Index.parentVia {σ : Type} (M : Model σ) (s : σ) (fuel : Nat) (i : Index) : Option Index :=
  match i.model with
  | none => some invalidIndex
  | some _ => Model.parent M s fuel i

/-- The default body of the virtual onValid: return true. -/
def defaultOnValid {σ : Type} : σ → Index → Bool :=
  fun _ _ => true

/-- The default body of the virtual onRoot: createIndex(-1, -1, 0) on the
object at address self. -/
def defaultOnRoot {σ : Type} (self : Nat) : σ → Index :=
  fun _ => Index.mk (-1) (-1) 0 (some self)

/-- The default body of the virtual onIndex: createIndex(row, column, 0). -/
def defaultOnIndex {σ : Type} (self : Nat) : σ → Int → Int → Index → Index :=
  fun _ row column _ => Index.mk row column 0 (some self)

/-- The default body of the virtual onSetData: return false. -/
def defaultOnSetData {σ : Type} : σ → Index → QVariant → Int → σ × Bool :=
  fun s _ _ _ => (s, false)

/-- The default body of the virtual onParent: return the
default-constructed Index. -/
def defaultOnParent {σ : Type} : σ → Index → Index :=
  fun _ _ => invalidIndex

/-- The default body of the virtual onRemoveRows: return false. -/
def defaultOnRemoveRows {σ : Type} : σ → Int → Int → Index → σ × Bool :=
  fun s _ _ _ => (s, false)

/-- The default body of the virtual onRemoveColumns: return false. -/
def defaultOnRemoveColumns {σ : Type} : σ → Int → Int → Index → σ × Bool :=
  fun s _ _ _ => (s, false)

/-- The default body of the virtual onMoveRows: return false. -/
def defaultOnMoveRows {σ : Type} : σ → Index → Int → Int → Index → Int → σ × Bool :=
  fun s _ _ _ _ _ => (s, false)

/-- The default body of the virtual onMoveColumns: return false. -/
def defaultOnMoveColumns {σ : Type} : σ → Index → Int → Int → Index → Int → σ × Bool :=
  fun s _ _ _ _ _ => (s, false)

/-- A concrete subclass for tests: the single-level list of section 8 of
the design notes, 3 rows and 1 column at every parent, value 0 for every
datum, all other hooks left at their defaults. Object address 1. -/
def listModel : Model Unit :=
  Model.mk 1
    defaultOnValid
    (defaultOnRoot 1)
    (defaultOnIndex 1)
    defaultOnSetData
    (fun _ _ _ => some 0)
    (fun _ _ => 3)
    (fun _ _ => 1)
    defaultOnParent
    defaultOnRemoveRows
    defaultOnRemoveColumns
    defaultOnMoveRows
    defaultOnMoveColumns

/-- A concrete subclass whose mutation hooks all accept: 3 rows and 3
columns at every parent, every mutating hook returns true without touching
its storage. Object address 2. -/
def ackModel : Model Unit :=
  Model.mk 2
    defaultOnValid
    (defaultOnRoot 2)
    (defaultOnIndex 2)
    (fun s _ _ _ => (s, true))
    (fun _ _ _ => some 0)
    (fun _ _ => 3)
    (fun _ _ => 3)
    defaultOnParent
    (fun s _ _ _ => (s, true))
    (fun s _ _ _ => (s, true))
    (fun s _ _ _ _ _ => (s, true))
    (fun s _ _ _ _ _ => (s, true))

/-- Shared lemma: at every call depth, Model::valid and Model::parent run
out of depth on every input, because valid(index) first calls
parent(index) and parent(index) first calls valid(index) again on the very
same index. -/
theorem valid_parent_none {σ : Type} (M : Model σ) (s : σ) :
    ∀ (fuel : Nat) (i : Index), M.valid s fuel i = none ∧ M.parent s fuel i = none := by
  intro fuel
  induction fuel with
  | zero => intro i; exact ⟨rfl, rfl⟩
  | succ f ih =>
    intro i
    constructor
    · unfold Model.valid
      rw [(ih i).2]
    · unfold Model.parent
      rw [(ih i).1]

/-- Shared lemma: for every starting value of the bool flag,
endMoveRows(beginMoveRows(flag)) yields false. -/
theorem endMoveRowsFlag_beginMoveRowsFlag (m : Bool) :
    endMoveRowsFlag (beginMoveRowsFlag m) = false := by
  cases m <;> rfl

/-- Claim C1: the spec says every public Model method runs to completion,
in particular valid, parent, data and setData. In the code, Model::valid
unconditionally calls Model::parent on the same index and Model::parent
unconditionally calls Model::valid back, so for every model, every
subclass storage, every index, every role and every call depth the three
const methods exhaust the depth without producing a result: none of them
ever returns. -/
theorem valid_parent_data_never_return (σ : Type) (M : Model σ) (s : σ) (fuel : Nat)
    (i : Index) (role : Int) :
    M.valid s fuel i = none ∧ M.parent s fuel i = none ∧ M.data s fuel i role = none := by
  refine ⟨(valid_parent_none M s fuel i).1, (valid_parent_none M s fuel i).2, ?_⟩
  unfold Model.data
  rw [(valid_parent_none M s fuel i).1]

/-- Claim C8: the spec says setData on an index that is not valid returns
false without invoking the write hook or raising dataChanged. In the code,
setData first evaluates valid(index), which never returns (valid and
parent recurse into each other), so setData itself never returns on any
index at any call depth: in particular it never returns false. -/
theorem setData_never_returns (σ : Type) (M : Model σ) (st : ModelState σ) (fuel : Nat)
    (i : Index) (value : QVariant) (role : Int) :
    M.setData st fuel i value role = none := by
  unfold Model.setData
  rw [(valid_parent_none M st.sub fuel i).1]

/-- Claim C9: the spec claims index(row, col, P).parent() == P for a
subclass with mutually consistent onIndex and onParent hooks. On the
3-row list model, whose default hooks are mutually consistent, the index
minted by index(0, 0, root) carries the owning model, so Index::parent
enters Model::parent, which never returns at any call depth: the
round-trip expression never produces any index at all. -/
theorem index_parent_roundtrip_diverges (fuel : Nat) :
    Index.parentVia listModel () fuel (Model.index listModel () 0 0 invalidIndex) = none := by
  have h : Model.index listModel () 0 0 invalidIndex = Index.mk 0 0 0 (some 1) := by decide
  rw [h]
  exact (valid_parent_none listModel () fuel (Index.mk 0 0 0 (some 1))).2

/-- Claim C4: for every model, state and arguments, the public moveRows
and moveColumns entry points return false, whatever the hook outcome and
whether or not the moved notification is raised. -/
theorem moveRows_moveColumns_return_false (σ : Type) (M : Model σ) (st : ModelState σ)
    (fp : Index) (fr count : Int) (tp : Index) (tr fc tc : Int) :
    (M.moveRows st fp fr count tp tr).fst = false ∧
    (M.moveColumns st fp fc count tp tc).fst = false := by
  constructor
  · unfold Model.moveRows
    split <;> rfl
  · unfold Model.moveColumns
    split <;> rfl

/-- Claim C6: for every model, storage, row, column and parent, validRow
holds exactly when 0 <= row <= rowCount(parent) and validColumn holds
exactly when 0 <= column <= columnCount(parent); the upper bound is the
count itself, inclusive. -/
theorem validRow_validColumn_iff_bounds (σ : Type) (M : Model σ) (s : σ) (r c : Int)
    (P : Index) :
    (M.validRow s r P = true ↔ 0 ≤ r ∧ r ≤ M.rowCount s P) ∧
    (M.validColumn s c P = true ↔ 0 ≤ c ∧ c ≤ M.columnCount s P) := by
  constructor
  · simp [Model.validRow]
  · simp [Model.validColumn]

/-- Claim C2: the spec says a successful removeColumns raises no
columns-removed notification while a column-move is in progress. In the
code the flag set by beginMoveColumns is the bool true, which converts to
the int 1, and 1 & Columns = 1 & 2 = 0, so the suppression test never
fires: on the accepting model, with the flag exactly as beginMoveColumns
leaves it, removeColumns(0, 1, Index()) succeeds and still raises
columnsRemoved(0, 1, Index()). -/
theorem removeColumns_emits_during_column_move :
    Model.removeColumns ackModel (ModelState.mk (beginMoveColumnsFlag false) ()) 0 1 invalidIndex =
      (true, ModelState.mk true (), [Signal.columnsRemoved 0 1 invalidIndex]) := by
  decide

/-- Claim C3: the spec says the moving flag is back to Idle after every
complete public move call. After moveColumns on an idle accepting model
with a valid source range, endMoveColumns computes moving_ &= ~Columns on
the bool flag, that is (bool)(1 & ~2) = true: the flag is still set when
the call returns. -/
theorem moveColumns_leaves_moving_flag_set :
    (Model.moveColumns ackModel (ModelState.mk false ()) invalidIndex 0 1 invalidIndex 2).snd.fst.moving
      = true := by
  decide

/-- Claim C5: the spec says a removeRows that returns true outside a
row-move raises exactly one rows-removed notification. With the flag
exactly as beginMoveColumns leaves it — a column-move, not a row-move —
the bool flag converts to 1 and 1 & Rows is nonzero, so on the accepting
model removeRows(0, 1, Index()) returns true and raises nothing. -/
theorem removeRows_suppressed_during_column_move :
    Model.removeRows ackModel (ModelState.mk (beginMoveColumnsFlag false) ()) 0 1 invalidIndex =
      (true, ModelState.mk true (), []) := by
  decide

/-- Claim C7 counterexample: with the default onRoot implementation (the
3-row list model), root() is not equal under Index::operator== to the
default-constructed Index, because onRoot returns createIndex(-1, -1, 0),
whose model pointer is the model itself rather than null. -/
theorem root_ne_default_sentinel :
    ¬ (Model.root listModel () = invalidIndex) := by
  decide

/-- Claim C7 as amended: with the default onRoot implementation, root()
returns an index with row -1, column -1, id 0 and the owning model as its
model pointer; since operator== also compares the model pointers, that
index differs from the default-constructed sentinel, whose model pointer
is null. -/
theorem root_default_hook_value (σ : Type) (M : Model σ) (s : σ)
    (h : M.onRoot = defaultOnRoot M.self) :
    M.root s = Index.mk (-1) (-1) 0 (some M.self) ∧ M.root s ≠ invalidIndex := by
  constructor
  · rw [Model.root, h]; rfl
  · rw [Model.root, h]
    intro hc
    simp [defaultOnRoot, invalidIndex] at hc

/-- Witness for root_default_hook_value at the 3-row list model. -/
theorem root_default_hook_value_witness :
    listModel.onRoot = defaultOnRoot listModel.self ∧
    (Model.root listModel () = Index.mk (-1) (-1) 0 (some listModel.self) ∧
     Model.root listModel () ≠ invalidIndex) :=
  ⟨rfl, root_default_hook_value Unit listModel () rfl⟩

/-- Claim C10: starting from an idle model, a moveColumns whose
source-range guard passes leaves the moving flag set on return, because
endMoveColumns computes (bool)(1 & ~2) = true; while the flag is set,
every removeRows (successful or not) raises no notification and keeps the
flag set, because the bool converts to 1 and 1 & Rows is nonzero; and a
later moveRows whose source-range guard passes ends with the flag
cleared, because endMoveRows computes (bool)(1 & ~1) = false. -/
theorem moveColumns_flag_persists_suppressing_removeRows (σ : Type) (M : Model σ)
    (st stB stC : ModelState σ) (fp : Index) (fc count : Int) (tp : Index) (tc : Int)
    (row cnt : Int) (parent : Index) (fp2 : Index) (fr2 c2 : Int) (tp2 : Index) (tr2 : Int)
    (hIdle : st.moving = false)
    (hPre : M.columnsRangeValid st.sub fc count fp = true)
    (hSet : stB.moving = true)
    (hPre2 : M.rowsRangeValid stC.sub fr2 c2 fp2 = true) :
    (M.moveColumns st fp fc count tp tc).snd.fst.moving = true ∧
    (M.removeRows stB row cnt parent).snd.snd = [] ∧
    (M.removeRows stB row cnt parent).snd.fst.moving = true ∧
    (M.moveRows stC fp2 fr2 c2 tp2 tr2).snd.fst.moving = false := by
  refine ⟨?_, ?_, ?_, ?_⟩
  · unfold Model.moveColumns
    rw [hPre, hIdle]
    show endMoveColumnsFlag (beginMoveColumnsFlag false) = true
    decide
  · unfold Model.removeRows
    rw [hSet]
    split
    · split <;> simp [boolToInt, movingRows]
    · rfl
  · unfold Model.removeRows
    rw [hSet]
    split
    · split <;> rfl
    · exact hSet
  · unfold Model.moveRows
    rw [hPre2]
    simp [endMoveRowsFlag_beginMoveRowsFlag]

/-- Witness for moveColumns_flag_persists_suppressing_removeRows on the
accepting model: begin idle, moveColumns(Index(), 0, 1, Index(), 2), then
removeRows(0, 1, Index()) with the flag set, then
moveRows(Index(), 0, 1, Index(), 2). -/
theorem moveColumns_flag_persists_suppressing_removeRows_witness :
    (ModelState.mk false (() : Unit)).moving = false ∧
    Model.columnsRangeValid ackModel (ModelState.mk false (() : Unit)).sub 0 1 invalidIndex = true ∧
    (ModelState.mk true (() : Unit)).moving = true ∧
    Model.rowsRangeValid ackModel (ModelState.mk true (() : Unit)).sub 0 1 invalidIndex = true ∧
    ((Model.moveColumns ackModel (ModelState.mk false ()) invalidIndex 0 1 invalidIndex 2).snd.fst.moving = true ∧
     (Model.removeRows ackModel (ModelState.mk true ()) 0 1 invalidIndex).snd.snd = [] ∧
     (Model.removeRows ackModel (ModelState.mk true ()) 0 1 invalidIndex).snd.fst.moving = true ∧
     (Model.moveRows ackModel (ModelState.mk true ()) invalidIndex 0 1 invalidIndex 2).snd.fst.moving = false) :=
  ⟨rfl, by decide, rfl, by decide,
   moveColumns_flag_persists_suppressing_removeRows Unit ackModel
     (ModelState.mk false ()) (ModelState.mk true ()) (ModelState.mk true ())
     invalidIndex 0 1 invalidIndex 2 0 1 invalidIndex invalidIndex 0 1 invalidIndex 2
     rfl (by decide) rfl (by decide)⟩

end Imv
